import Mathlib

/-!
Verification of the Hunter Agency core: the email-sequence automation engine
(`crm/email_engine/automation/__init__.py`), the lead scoring engine
(`ai/lead_intelligence/scoring/engine/lead_scoring_engine.py`) and the lead
qualification service (`crm/smart_pipeline/services/qualification.py`).

Timestamps are modelled as seconds since the Unix epoch (`Nat`).  Python's
`datetime.weekday()` returns 0 for Monday; 1970-01-01 was a Thursday, hence
the `+ 3` offset below.  Scores (Python floats) are modelled as `ℚ`; every
numeric literal of the source appears as the corresponding rational.
-/

/- Batteries marks the `Rat` field operations `@[irreducible]`, which blocks
`decide` on concrete score computations; restore default transparency (this
affects elaboration only, not the kernel-checked proofs). -/
set_option allowUnsafeReducibility true
attribute [semireducible] Rat.add Rat.mul Rat.inv Rat.sub Rat.neg Rat.div Rat.floor

/-- Python's `needle in hay` substring test. -/
def strContains (hay needle : String) : Bool :=
  hay.toList.tails.any (fun suffixPart => needle.toList.isPrefixOf suffixPart)

/-- `s.lower()` (ASCII case folding, as in every string the engines match). -/
def lowerString (s : String) : String := ⟨s.toList.map Char.toLower⟩

/-- `s.split(sep)` for a one-character separator, on the character list. -/
def splitOnChar (sep : Char) : List Char → List (List Char)
  | [] => [[]]
  | c :: rest =>
    let r := splitOnChar sep rest
    if c == sep then [] :: r
    else
      match r with
      | h :: t => (c :: h) :: t
      | [] => [[c]]

/-- Python truthiness of an optional string (`None` and `''` are falsy). -/
def truthyOpt (o : Option String) : Bool :=
  match o with
  | some s => s ≠ ""
  | none => false

/-- `round(q, 2)`.  (Python rounds floats half-to-even; the difference to
half-up is immaterial here: no claim concerns a rounded display value.) -/
def round2 (q : ℚ) : ℚ := (⌊q * 100 + 1/2⌋ : ℚ) / 100

namespace Automation

/-- `SequenceStatus` enum of `models/__init__.py`. -/
inductive SequenceStatus where
  | ACTIVE
  | PAUSED
  | COMPLETED
  | STOPPED
deriving DecidableEq, Repr, BEq

/-- The `sending_schedule` JSON column: a dict that may or may not carry the
`business_days` and `business_hours` keys (`schedule.get(key, default)`). -/
structure Schedule where
  business_days : Option (List Nat)
  business_hours : Option (Nat × Nat)
deriving DecidableEq, Repr

/-- `EmailSequence` row (the columns read by the automation engine). -/
structure EmailSequence where
  id : Nat
  target_grades : List String
  target_sources : List String
  target_industries : List String
  sending_schedule : Option Schedule
deriving DecidableEq, Repr

/-- `send_conditions` JSON dict of a step (keys optional). -/
structure SendConditions where
  min_lead_score : Option ℚ
  required_grade : Option String
deriving DecidableEq, Repr

/-- `skip_conditions` JSON dict of a step (keys optional). -/
structure SkipConditions where
  skip_if_replied : Option Bool
deriving DecidableEq, Repr

/-- `SequenceStep` row. -/
structure SequenceStep where
  sequence_id : Nat
  step_number : Nat
  delay_days : Nat
  delay_hours : Nat
  delay_minutes : Nat
  template_id : Nat
  send_conditions : SendConditions
  skip_conditions : SkipConditions
deriving DecidableEq, Repr

/-- `Lead` row (the columns the automation engine branches on). -/
structure Lead where
  id : Nat
  grade : Option String
  source : Option String
  industry : Option String
  ai_score : ℚ
deriving DecidableEq, Repr

/-- `EmailTemplate` row (only its identity matters to the state machine;
content rendering is the external template collaborator). -/
structure EmailTemplate where
  id : Nat
deriving DecidableEq, Repr

/-- `SequenceEnrollment` row. `next_email_at` is a nullable DateTime column. -/
structure Enrollment where
  sequence_id : Nat
  lead_id : Nat
  enrolled_by : String
  status : SequenceStatus
  current_step : Nat
  next_email_at : Option Nat
  emails_sent : Nat
  completed_at : Option Nat
deriving DecidableEq, Repr

/-- `Email` row as far as the state machine is concerned (the rendered
subject/body come from the external template engine and are not modelled). -/
structure EmailRec where
  template_id : Nat
  lead_id : Nat
  scheduled_at : Nat
  replied_at : Option Nat
deriving DecidableEq, Repr

/-- The relational store seen through the engine's queries. -/
structure Db where
  sequences : List EmailSequence
  steps : List SequenceStep
  leads : List Lead
  templates : List EmailTemplate
  enrollments : List Enrollment
  emails : List EmailRec
deriving DecidableEq, Repr

def secondsPerDay : Nat := 86400

/-- `datetime.weekday()`: Monday = 0. -/
def weekday (t : Nat) : Nat := (t / secondsPerDay + 3) % 7

/-- `datetime.hour`. -/
def hourOf (t : Nat) : Nat := t % secondsPerDay / 3600

/-- `send_time.replace(hour=h, minute=0, second=0)`. -/
def replaceHourZero (t h : Nat) : Nat := t / secondsPerDay * secondsPerDay + h * 3600

/-- `schedule.get('business_days', [0, 1, 2, 3, 4])` after
`schedule = sequence.sending_schedule or {}`. -/
def scheduleDays (sequence : EmailSequence) : List Nat :=
  match sequence.sending_schedule with
  | some sch => sch.business_days.getD [0, 1, 2, 3, 4]
  | none => [0, 1, 2, 3, 4]

/-- `schedule.get('business_hours', [9, 17])`. -/
def scheduleHours (sequence : EmailSequence) : Nat × Nat :=
  match sequence.sending_schedule with
  | some sch => sch.business_hours.getD (9, 17)
  | none => (9, 17)

/-- The `while send_time.weekday() not in business_days: send_time += 1 day`
loop of `_adjust_for_schedule`, unrolled with explicit fuel.  Seven probes
visit all seven weekdays, so fuel 7 reproduces the loop exactly whenever the
loop terminates at all (proved below); with no valid weekday in
`business_days` the Python loop diverges. -/
def advanceToBusinessDay (business_days : List Nat) : Nat → Nat → Nat
  | 0, t => t
  | fuel + 1, t =>
    if weekday t ∈ business_days then t
    else advanceToBusinessDay business_days fuel (t + secondsPerDay)

/-- `SequenceAutomationEngine._adjust_for_schedule`. -/
def adjust_for_schedule (send_time : Nat) (sequence : EmailSequence) : Nat :=
  let business_days := scheduleDays sequence
  let business_hours := scheduleHours sequence
  let t1 := advanceToBusinessDay business_days 7 send_time
  if hourOf t1 < business_hours.1 then
    replaceHourZero t1 business_hours.1
  else if business_hours.2 ≤ hourOf t1 then
    advanceToBusinessDay business_days 7
      (replaceHourZero (t1 + secondsPerDay) business_hours.1)
  else
    t1

/-- `SequenceStep.query` lookup used by `_calculate_next_email_time` and
`_process_enrollment`. -/
def findStep (db : Db) (sequence_id step_number : Nat) : Option SequenceStep :=
  db.steps.find? (fun s => s.sequence_id == sequence_id && s.step_number == step_number)

def findSequence (db : Db) (sequence_id : Nat) : Option EmailSequence :=
  db.sequences.find? (fun s => s.id == sequence_id)

def findLead (db : Db) (lead_id : Nat) : Option Lead :=
  db.leads.find? (fun l => l.id == lead_id)

def findTemplate (db : Db) (template_id : Nat) : Option EmailTemplate :=
  db.templates.find? (fun t => t.id == template_id)

/-- `timedelta(days=.., hours=.., minutes=..)` in seconds. -/
def stepDelay (step : SequenceStep) : Nat :=
  step.delay_days * secondsPerDay + step.delay_hours * 3600 + step.delay_minutes * 60

/-- `SequenceAutomationEngine._calculate_next_email_time` (`now` stands for
`datetime.utcnow()`).  When the step does not exist it returns `now`
unadjusted — it never returns null. -/
def calculate_next_email_time (db : Db) (sequence : EmailSequence)
    (step_number : Nat) (now : Nat) : Nat :=
  match findStep db sequence.id step_number with
  | none => now
  | some step => adjust_for_schedule (now + stepDelay step) sequence

/-- `x not in list` for a nullable string against a list of strings
(`None` is never a member). -/
def optMem (o : Option String) (l : List String) : Bool :=
  match o with
  | some s => l.contains s
  | none => false

/-- `SequenceAutomationEngine._lead_matches_targeting` (an empty JSON list is
falsy, so an empty targeting list disables that check). -/
def lead_matches_targeting (lead : Lead) (sequence : EmailSequence) : Bool :=
  if !sequence.target_grades.isEmpty && !optMem lead.grade sequence.target_grades then
    false
  else if !sequence.target_sources.isEmpty && !optMem lead.source sequence.target_sources then
    false
  else if !sequence.target_industries.isEmpty && !optMem lead.industry sequence.target_industries then
    false
  else
    true

/-- The duplicate-enrollment query at the head of `enroll_lead_in_sequence`. -/
def hasActiveEnrollment (db : Db) (lead_id sequence_id : Nat) : Bool :=
  db.enrollments.any (fun e =>
    e.lead_id == lead_id && e.sequence_id == sequence_id &&
      e.status == SequenceStatus.ACTIVE)

/-- `SequenceAutomationEngine.enroll_lead_in_sequence`: returns the boolean
result together with the store after the commit. -/
def enroll_lead_in_sequence (db : Db) (lead_id sequence_id : Nat)
    (enrolled_by : String) (now : Nat) : Bool × Db :=
  if hasActiveEnrollment db lead_id sequence_id then
    (false, db)
  else
    match findSequence db sequence_id, findLead db lead_id with
    | some sequence, some lead =>
      if !lead_matches_targeting lead sequence then
        (false, db)
      else
        let enrollment : Enrollment :=
          { sequence_id := sequence_id
            lead_id := lead_id
            enrolled_by := enrolled_by
            status := SequenceStatus.ACTIVE
            current_step := 1
            next_email_at := some (calculate_next_email_time db sequence 1 now)
            emails_sent := 0
            completed_at := none }
        (true, { db with enrollments := db.enrollments ++ [enrollment] })
    | _, _ => (false, db)

/-- Number of ACTIVE enrollments stored for a (lead, sequence) pair. -/
def countActive (db : Db) (lead_id sequence_id : Nat) : Nat :=
  (db.enrollments.filter (fun e =>
    e.lead_id == lead_id && e.sequence_id == sequence_id &&
      e.status == SequenceStatus.ACTIVE)).length

/-- `SequenceAutomationEngine._check_step_conditions`. -/
def check_step_conditions (db : Db) (step : SequenceStep) (lead : Lead) : Bool :=
  if (match step.send_conditions.min_lead_score with
      | some m => decide (lead.ai_score < m)
      | none => false) then
    false
  else if (match step.send_conditions.required_grade with
      | some g => lead.grade != some g
      | none => false) then
    false
  else if (match step.skip_conditions.skip_if_replied with
      | some b => b && db.emails.any (fun em => em.lead_id == lead.id && em.replied_at.isSome)
      | none => false) then
    false
  else
    true

/-- `SequenceAutomationEngine._create_email_from_template` (rendering happens
in the external template engine; the state machine only records the row and
its `scheduled_at = utcnow() + 1 minute`). -/
def create_email_from_template (template : EmailTemplate) (lead : Lead)
    (now : Nat) : EmailRec :=
  { template_id := template.id
    lead_id := lead.id
    scheduled_at := now + 60
    replied_at := none }

/-- The ORM relationship `enrollment.sequence` (foreign-key integrity of the
store is assumed: the branches of the claims never dereference a dangling
sequence id). -/
def enrollmentSequence (db : Db) (e : Enrollment) : EmailSequence :=
  (findSequence db e.sequence_id).getD
    { id := e.sequence_id, target_grades := [], target_sources := []
      target_industries := [], sending_schedule := none }

/-- `SequenceAutomationEngine._process_enrollment`: returns the enrollment row
after the call together with the email created, if any.  Mirrors the source
exactly: on a missing step the status becomes COMPLETED (and `next_email_at`
is not touched); on a missing lead or template the function returns with the
row entirely unchanged; a failed condition check advances the step without an
email (`_advance_to_next_step`); otherwise an email is created and the row is
advanced. -/
def process_enrollment (db : Db) (enrollment : Enrollment) (now : Nat) :
    Enrollment × Option EmailRec :=
  match findStep db enrollment.sequence_id enrollment.current_step with
  | none =>
    ({ enrollment with status := SequenceStatus.COMPLETED, completed_at := some now }, none)
  | some step =>
    match findLead db enrollment.lead_id, findTemplate db step.template_id with
    | some lead, some template =>
      if !check_step_conditions db step lead then
        ({ enrollment with
            current_step := enrollment.current_step + 1
            next_email_at := some (calculate_next_email_time db
              (enrollmentSequence db enrollment) (enrollment.current_step + 1) now) }, none)
      else
        let email := create_email_from_template template lead now
        ({ enrollment with
            current_step := enrollment.current_step + 1
            emails_sent := enrollment.emails_sent + 1
            next_email_at := some (calculate_next_email_time db
              (enrollmentSequence db enrollment) (enrollment.current_step + 1) now) }, some email)
    | _, _ => (enrollment, none)

/-- The due-enrollment filter of `process_sequences`
(`status == ACTIVE and next_email_at <= utcnow()`; a SQL NULL comparison is
false). -/
def isDue (e : Enrollment) (now : Nat) : Bool :=
  e.status == SequenceStatus.ACTIVE &&
    (match e.next_email_at with
     | some t => t ≤ now
     | none => false)

end Automation

namespace Scoring

/-- A dynamically-typed attribute value.  `LeadScoringEngine` reads profile
attributes with `getattr(...)`, so a field can hold a non-string object; the
only place such a value's type error escapes to `score_profile`'s handler is
`len(description)` in `_ai_contextual_scoring`, which sits before that
method's inner `try` (every other attribute access is consumed inside
`_algorithmic_scoring`'s own `try`, whose handler returns the documented
5.0).  The remaining fields are therefore modelled as optional strings. -/
inductive Dyn where
  | str (s : String)
  | nonStr
deriving DecidableEq, Repr

/-- `len(x)`: raises (`TypeError`) on an object without a length. -/
def pyLen (d : Dyn) : Except Unit Nat :=
  match d with
  | Dyn.str s => Except.ok s.length
  | Dyn.nonStr => Except.error ()

/-- Python truthiness of a dynamic value (a plain object is truthy). -/
def pyTruthy (d : Dyn) : Bool :=
  match d with
  | Dyn.str s => s ≠ ""
  | Dyn.nonStr => true

/-- The string content of a dynamic value (only ever applied after `pyLen`
has succeeded, i.e. on `Dyn.str`). -/
def dynStr (d : Dyn) : String :=
  match d with
  | Dyn.str s => s
  | Dyn.nonStr => ""

/-- The profile object as read by `LeadScoringEngine` via `getattr`. -/
structure Profile where
  id : Nat
  email : Option String
  phone : Option String
  instagram_url : Option String
  onlyfans_url : Option String
  twitter_url : Option String
  description : Option Dyn
  location : Option String
deriving DecidableEq, Repr

def inLocalClass (c : Char) : Bool :=
  c.isAlphanum || c == '.' || c == '_' || c == '%' || c == '+' || c == '-'

def inDomainClass (c : Char) : Bool :=
  c.isAlphanum || c == '.' || c == '-'

/-- `LeadScoringEngine._is_valid_email`:
`re.match(r'^[a-zA-Z0-9._%+-]+@[a-zA-Z0-9.-]+\.[a-zA-Z]{2,}$', email)`.
Neither character class admits `@`, so a match forces exactly one `@`; with
backtracking, the domain part matches iff it decomposes as a non-empty
`[a-zA-Z0-9.-]+` run, a dot, and a final all-alphabetic run of length ≥ 2 —
since that final run contains no dot, the dot before it is the last dot of
the domain, i.e. the tail after the last dot is alphabetic of length ≥ 2. -/
def is_valid_email (email : String) : Bool :=
  match splitOnChar '@' email.toList with
  | [localPart, domainPart] =>
    let rev := domainPart.reverse
    let tld := rev.takeWhile Char.isAlpha
    let rest := rev.dropWhile Char.isAlpha
    !localPart.isEmpty && localPart.all inLocalClass && decide (2 ≤ tld.length) &&
      (match rest with
       | '.' :: beforeTld => !beforeTld.isEmpty && beforeTld.all inDomainClass
       | _ => false)
  | _ => false

/-- `LeadScoringEngine._is_valid_phone`: strip everything but digits and `+`,
then require at least 10 characters. -/
def is_valid_phone (phone : String) : Bool :=
  decide (10 ≤ (phone.toList.filter (fun c => c.isDigit || c == '+')).length)

def business_keywords : List String :=
  ["serious", "professional", "booking", "available", "rates", "outcall", "incall"]

def major_cities : List String :=
  ["new york", "los angeles", "chicago", "miami", "san francisco", "las vegas"]

/-- The `try` body of `LeadScoringEngine._algorithmic_scoring`.  The only
failing operation is `len(description)` on a non-string attribute. -/
def algoBody (p : Profile) : Except Unit ℚ := do
  let score : ℚ := 0
  let score := score +
    (if truthyOpt p.email then (if is_valid_email (p.email.getD "") then 2 else 1) else 0)
  let score := score +
    (if truthyOpt p.phone then (if is_valid_phone (p.phone.getD "") then 2 else 1) else 0)
  let social_score : ℚ :=
    (if truthyOpt p.instagram_url then 1 else 0) +
    (if truthyOpt p.onlyfans_url then 3/2 else 0) +
    (if truthyOpt p.twitter_url then 1/2 else 0)
  let score := score + min social_score (5/2)
  let description := p.description.getD (Dyn.str "")
  let score ←
    if pyTruthy description then do
      let desc_length ← pyLen description
      let s := dynStr description
      let content_score : ℚ :=
        if 200 < desc_length then 1
        else if 100 < desc_length then 3/5
        else if 50 < desc_length then 3/10
        else 0
      let keyword_count :=
        (business_keywords.filter (fun kw => strContains (lowerString s) kw)).length
      let content_score := content_score + min ((keyword_count : ℚ) * (3/10)) (3/2)
      pure (score + min content_score (5/2))
    else pure score
  let score := score +
    (if truthyOpt p.location then
      (if major_cities.any (fun city => strContains (lowerString (p.location.getD "")) city)
       then 1 else 1/2)
     else 0)
  return min score 10

/-- `LeadScoringEngine._algorithmic_scoring`: its own `except` returns 5.0. -/
def algorithmic_scoring (p : Profile) : ℚ :=
  match algoBody p with
  | Except.ok q => q
  | Except.error _ => 5

def positive_indicators : List String :=
  ["professional", "serious", "discreet", "upscale", "verified", "elite"]

def negative_indicators : List String :=
  ["cheap", "quick", "fast", "low", "discount"]

/-- The keyword analysis inside `_ai_contextual_scoring`'s `try` (total on
genuine strings). -/
def aiAnalysis (description : String) : ℚ :=
  let positive_count :=
    (positive_indicators.filter (fun w => strContains (lowerString description) w)).length
  let negative_count :=
    (negative_indicators.filter (fun w => strContains (lowerString description) w)).length
  let base_score : ℚ := 5 + (positive_count : ℚ) * (4/5) - (negative_count : ℚ) * (1/2)
  let base_score :=
    if 3 < (splitOnChar '.' description.toList).length then base_score + 1/2 else base_score
  let base_score :=
    if (description.toList.filter (fun c => c == '!')).length ≤ 2
    then base_score + 3/10 else base_score
  max 1 (min 10 base_score)

/-- `LeadScoringEngine._ai_contextual_scoring`.  The short-content guard
`if not description or len(description) < 20` runs before the inner `try`,
so `len` on a truthy non-string attribute raises out of the method. -/
def ai_contextual_scoring (p : Profile) : Except Unit ℚ :=
  match p.description.getD (Dyn.str "") with
  | Dyn.str s =>
    if s = "" then Except.ok 5
    else if s.length < 20 then Except.ok 5
    else Except.ok (aiAnalysis s)
  | Dyn.nonStr => Except.error ()

/-- `LeadScoringEngine._classify_lead`. -/
def classify_lead (score : ℚ) : String :=
  if 8 ≤ score then "HOT"
  else if 13/2 ≤ score then "WARM"
  else if 4 ≤ score then "COLD"
  else "TRASH"

/-- `LeadScoringEngine._suggest_next_action` (`dict.get` default
`MANUAL_REVIEW`). -/
def suggest_next_action (classification : String) : String :=
  if classification = "HOT" then "CONTACT_IMMEDIATELY"
  else if classification = "WARM" then "EMAIL_SEQUENCE"
  else if classification = "COLD" then "NURTURE_CAMPAIGN"
  else if classification = "TRASH" then "DISCARD"
  else "MANUAL_REVIEW"

/-- The `estimated_value` dict (`confidence` and the range are absent from
the default result, hence optional). -/
structure EstimatedValue where
  estimated_value_usd : ℚ
  confidence : Option String
  value_min : Option ℚ
  value_max : Option ℚ
deriving DecidableEq, Repr

/-- `LeadScoringEngine._estimate_value`. -/
def estimate_value (score : ℚ) (p : Profile) : EstimatedValue :=
  let base_value : ℚ := 100
  let estimated_value := base_value * (score / 5)
  let estimated_value :=
    if truthyOpt p.onlyfans_url then estimated_value * (9/5) else estimated_value
  let estimated_value :=
    if truthyOpt p.location &&
        ["new york", "los angeles", "miami"].any
          (fun city => strContains (lowerString (p.location.getD "")) city) then
      estimated_value * (7/5)
    else estimated_value
  { estimated_value_usd := round2 estimated_value
    confidence := some (if 7 ≤ score then "high" else if 5 ≤ score then "medium" else "low")
    value_min := some (round2 (estimated_value * (3/5)))
    value_max := some (round2 (estimated_value * 2)) }

/-- `LeadScoringEngine._calculate_confidence`. -/
def calculate_confidence (algo_score ai_score : ℚ) : ℚ :=
  let score_diff := |algo_score - ai_score|
  if score_diff ≤ 1 then 19/20
  else if score_diff ≤ 2 then 4/5
  else if score_diff ≤ 3 then 13/20
  else 1/2

/-- The result dict of `score_profile` (`scoring_method` is absent from the
default result, hence optional; `scored_at` is the `utcnow` argument). -/
structure ScoreResult where
  profile_id : Nat
  final_score : ℚ
  classification : String
  confidence : ℚ
  algorithmic : ℚ
  ai_contextual : ℚ
  ml_prediction : ℚ
  next_action : String
  estimated_value : EstimatedValue
  scored_at : Nat
  scoring_method : Option String
deriving DecidableEq, Repr

def weights_algorithmic : ℚ := 1/2
def weights_ai_contextual : ℚ := 3/10
def weights_ml_prediction : ℚ := 1/5

/-- `LeadScoringEngine._default_score_result`. -/
def default_score_result (profile_id : Nat) (now : Nat) : ScoreResult :=
  { profile_id := profile_id
    final_score := 5
    classification := "UNKNOWN"
    confidence := 1/2
    algorithmic := 5
    ai_contextual := 5
    ml_prediction := 5
    next_action := "MANUAL_REVIEW"
    estimated_value :=
      { estimated_value_usd := 100, confidence := none, value_min := none, value_max := none }
    scored_at := now
    scoring_method := none }

/-- The `try` body of `LeadScoringEngine.score_profile`. -/
def scoreProfileBody (p : Profile) (now : Nat) : Except Unit ScoreResult := do
  let algo_score := algorithmic_scoring p
  let ai_score ← ai_contextual_scoring p
  let ml_score : ℚ := 5
  let final_score :=
    algo_score * weights_algorithmic + ai_score * weights_ai_contextual +
      ml_score * weights_ml_prediction
  let classification := classify_lead final_score
  let next_action := suggest_next_action classification
  let estimated_value := estimate_value final_score p
  return {
    profile_id := p.id
    final_score := round2 final_score
    classification := classification
    confidence := calculate_confidence algo_score ai_score
    algorithmic := round2 algo_score
    ai_contextual := round2 ai_score
    ml_prediction := round2 ml_score
    next_action := next_action
    estimated_value := estimated_value
    scored_at := now
    scoring_method := some "hybrid_ai_algorithm" }

/-- `LeadScoringEngine.score_profile`: any exception from the body is caught
and the default result returned. -/
def score_profile (p : Profile) (now : Nat) : ScoreResult :=
  match scoreProfileBody p now with
  | Except.ok r => r
  | Except.error _ => default_score_result p.id now

end Scoring

namespace Qualification

/-- The exceptions observable inside `qualify_lead`'s `try`: the explicit
`ValueError("Lead .. non trouvé")` raised when the id does not resolve, and
the `AttributeError` from `.lower()` on a NULL text column. -/
inductive QualError where
  | notFound
  | attributeError
deriving DecidableEq, Repr

/-- A `pipeline_leads` row as the dict built in `_get_lead_data` (text
columns are nullable). `last_contact` is stored as an ISO timestamp; it is
modelled directly as epoch seconds. -/
structure PipelineLeadRow where
  id : Nat
  first_name : Option String
  email : Option String
  phone : Option String
  company : Option String
  industry : Option String
  source : Option String
  budget_range : Option String
  notes : Option String
  last_contact : Option Nat
deriving DecidableEq, Repr

/-- An `email_campaigns` row (only the aggregated columns matter). -/
structure EmailCampaignRow where
  lead_id : Nat
  opened : Bool
  clicked : Bool
deriving DecidableEq, Repr

/-- The `hunter_agency.db` store as queried by the service.  `leads_ids` is
the `leads` table referenced by the nested
`lead_id = (SELECT id FROM leads WHERE id = ?)` subquery of the behavioral
analysis (a missing id makes that subquery NULL, so no campaign row
matches). -/
structure QDb where
  pipeline_leads : List PipelineLeadRow
  leads_ids : List Nat
  email_campaigns : List EmailCampaignRow
deriving DecidableEq, Repr

/-- `LeadQualificationService._get_lead_data`. -/
def get_lead_data (db : QDb) (lead_id : Nat) : Option PipelineLeadRow :=
  db.pipeline_leads.find? (fun r => r.id == lead_id)

/-- `value.lower()` on a nullable column: `None.lower()` raises. -/
def pyLower (o : Option String) : Except QualError String :=
  match o with
  | some s => Except.ok (lowerString s)
  | none => Except.error QualError.attributeError

def bant_weight_budget : ℚ := 3/10
def bant_weight_authority : ℚ := 1/4
def bant_weight_need : ℚ := 1/4
def bant_weight_timeline : ℚ := 1/5

def authority_indicators : List String :=
  ["ceo", "founder", "director", "vp", "head", "manager", "owner"]

def high_need_industries : List String :=
  ["saas", "ecommerce", "agency", "consulting", "fintech", "marketing"]

/-- `LeadQualificationService._analyze_bant_criteria`.  Note `'50k+' in
budget_range` (and the other range literals) are tested against the raw,
un-lowered string, exactly as in the source. -/
def analyze_bant_criteria (ld : PipelineLeadRow) : Except QualError ℚ := do
  let budget_score : ℚ :=
    if truthyOpt ld.budget_range then
      let br := ld.budget_range.getD ""
      if strContains (lowerString br) "enterprise" || strContains br "50k+" then 10
      else if strContains (lowerString br) "mid-market" || strContains br "10k-50k" then 15/2
      else if strContains (lowerString br) "small" || strContains br "1k-10k" then 5
      else 5/2
    else 0
  let notes ← pyLower ld.notes
  let authority_score : ℚ :=
    if authority_indicators.any (fun ind => strContains notes ind) then 8
    else if truthyOpt ld.company then 6
    else 3
  let industryLower ← pyLower ld.industry
  let need_score : ℚ :=
    if high_need_industries.any (fun ind => strContains industryLower ind) then 8
    else if industryLower ≠ "" then 5
    else 3
  let timeline_score : ℚ :=
    if strContains notes "urgent" || strContains notes "asap" then 9
    else if strContains notes "soon" || strContains notes "quick" then 7
    else 5
  let weighted_score :=
    budget_score * bant_weight_budget + authority_score * bant_weight_authority +
      need_score * bant_weight_need + timeline_score * bant_weight_timeline
  return min weighted_score 10

/-- `LeadQualificationService._analyze_behavioral_data` (its own `except`
returns 5.0; in this embedding the query itself cannot fail). -/
def analyze_behavioral_data (db : QDb) (lead_id : Nat) : ℚ :=
  let rows :=
    if db.leads_ids.contains lead_id then
      db.email_campaigns.filter (fun r => r.lead_id == lead_id)
    else []
  let email_count := rows.length
  if 0 < email_count then
    let opens := (rows.filter (fun r => r.opened)).length
    let clicks := (rows.filter (fun r => r.clicked)).length
    let engagement_rate : ℚ := ((opens : ℚ) + (clicks : ℚ) * 2) / (email_count : ℚ)
    let behavioral_score := min (engagement_rate * 5) 10
    let behavioral_score := if 0 < clicks then behavioral_score + 2 else behavioral_score
    min behavioral_score 10
  else 5

def free_domains : List String :=
  ["gmail.com", "yahoo.com", "hotmail.com", "outlook.com"]

/-- `LeadQualificationService._analyze_demographic_fit`. -/
def analyze_demographic_fit (ld : PipelineLeadRow) : Except QualError ℚ := do
  let score : ℚ := 5
  let score :=
    if truthyOpt ld.email then
      let email := ld.email.getD ""
      let domain :=
        if strContains email "@" then lowerString ⟨(splitOnChar '@' email.toList).getD 1 []⟩ else ""
      let score := if domain ≠ "" && !free_domains.contains domain then score + 2 else score
      if [".co", ".inc", ".llc", ".corp"].any (fun ind => strContains domain ind) then
        score + 1
      else score
    else score
  let completeness_score : ℚ :=
    (if truthyOpt ld.first_name then 1/2 else 0) +
    (if truthyOpt ld.company then 1/2 else 0) +
    (if truthyOpt ld.phone then 1/2 else 0) +
    (if truthyOpt ld.industry then 1/2 else 0)
  let score := score + completeness_score
  let source ← pyLower ld.source
  let score := score +
    (if source = "referral" then 2
     else if source = "linkedin" then 3/2
     else if source = "website" then 1
     else if source = "webinar" then 3/2
     else if source = "manual" then 1/2
     else 0)
  return min score 10

/-- `LeadQualificationService._analyze_engagement_level` (banded by whole
days since last contact; `timedelta.days` floors). -/
def analyze_engagement_level (db : QDb) (lead_id : Nat) (now : Nat) : ℚ :=
  match get_lead_data db lead_id with
  | some row =>
    match row.last_contact with
    | some lc =>
      let days_since_contact : ℤ := Int.fdiv ((now : ℤ) - (lc : ℤ)) 86400
      if days_since_contact ≤ 7 then 9
      else if days_since_contact ≤ 30 then 7
      else if days_since_contact ≤ 90 then 5
      else 3
    | none => 6
  | none => 6

/-- `LeadQualificationService._calculate_weighted_score`. -/
def calculate_weighted_score (bant behavioral demographic engagement : ℚ) : ℚ :=
  min (bant * (2/5) + behavioral * (1/4) + demographic * (1/5) + engagement * (3/20)) 10

/-- `LeadQualificationService._classify_lead` (thresholds 8.0/6.0/4.0). -/
def classify_lead (score : ℚ) : String :=
  if 8 ≤ score then "HOT"
  else if 6 ≤ score then "WARM"
  else if 4 ≤ score then "COLD"
  else "UNQUALIFIED"

/-- `LeadQualificationService._generate_recommendations`. -/
def generate_recommendations (ld : PipelineLeadRow) (classification : String) :
    List String :=
  let recs :=
    if classification = "HOT" then
      ["Contacter immédiatement par téléphone",
       "Proposer un appel de découverte dans les 24h",
       "Préparer une proposition personnalisée"]
    else if classification = "WARM" then
      ["Lancer une séquence email personnalisée",
       "Programmer un suivi dans 3-5 jours",
       "Envoyer du contenu éducatif pertinent"]
    else if classification = "COLD" then
      ["Ajouter à la campagne de nurturing",
       "Envoyer du contenu de valeur régulièrement",
       "Requalifier dans 30 jours"]
    else
      ["Enrichir les données du lead",
       "Vérifier la validité des informations",
       "Considérer l\x27archivage si pas de réponse"]
  let recs := recs ++
    (if !truthyOpt ld.phone then ["Rechercher le numéro de téléphone"] else [])
  recs ++
    (if !truthyOpt ld.company then ["Identifier l\x27entreprise du prospect"] else [])

structure NextAction where
  action : String
  priority : String
  due_date : Nat
  description : String
deriving DecidableEq, Repr

/-- `LeadQualificationService._suggest_next_actions` (due dates are offsets
from `now` in seconds). -/
def suggest_next_actions (classification : String) (now : Nat) : List NextAction :=
  if classification = "HOT" then
    [{ action := "CALL", priority := "HIGH", due_date := now + 2 * 3600
       description := "Appel de découverte urgent" },
     { action := "EMAIL", priority := "HIGH", due_date := now + 3600
       description := "Email de prise de contact personnalisé" }]
  else if classification = "WARM" then
    [{ action := "EMAIL_SEQUENCE", priority := "MEDIUM", due_date := now + 86400
       description := "Démarrer séquence email 5 étapes" },
     { action := "LINKEDIN_CONNECT", priority := "LOW", due_date := now + 2 * 86400
       description := "Connexion LinkedIn avec message personnalisé" }]
  else if classification = "COLD" then
    [{ action := "NURTURE_CAMPAIGN", priority := "LOW", due_date := now + 7 * 86400
       description := "Ajouter à la campagne de nurturing mensuelle" }]
  else []

/-- The result dict of `qualify_lead`. -/
structure QualResult where
  lead_id : Nat
  qualification_score : ℚ
  classification : String
  bant_score : ℚ
  behavioral_score : ℚ
  demographic_score : ℚ
  engagement_score : ℚ
  recommendations : List String
  qualified_at : Nat
  next_actions : List NextAction
deriving DecidableEq, Repr

/-- `LeadQualificationService._default_qualification_result`. -/
def default_qualification_result (lead_id : Nat) (now : Nat) : QualResult :=
  { lead_id := lead_id
    qualification_score := 5
    classification := "UNKNOWN"
    bant_score := 5
    behavioral_score := 5
    demographic_score := 5
    engagement_score := 5
    recommendations := ["Revoir manuellement ce lead"]
    qualified_at := now
    next_actions :=
      [{ action := "MANUAL_REVIEW", priority := "MEDIUM", due_date := now + 86400
         description := "Qualification manuelle nécessaire" }] }

/-- The `try` body of `LeadQualificationService.qualify_lead`: the missing
lead raises `ValueError` (NotFound); the sub-scorers may raise on NULL text
columns.  The persistence step `_update_lead_qualification` swallows its own
errors and does not affect the returned dict. -/
def qualifyLeadBody (db : QDb) (lead_id : Nat) (now : Nat) :
    Except QualError QualResult := do
  match get_lead_data db lead_id with
  | none => throw QualError.notFound
  | some lead_data =>
    let bant_score ← analyze_bant_criteria lead_data
    let behavioral_score := analyze_behavioral_data db lead_id
    let demographic_score ← analyze_demographic_fit lead_data
    let engagement_score := analyze_engagement_level db lead_id now
    let final_score :=
      calculate_weighted_score bant_score behavioral_score demographic_score
        engagement_score
    let classification := classify_lead final_score
    let recommendations := generate_recommendations lead_data classification
    return {
      lead_id := lead_id
      qualification_score := round2 final_score
      classification := classification
      bant_score := round2 bant_score
      behavioral_score := round2 behavioral_score
      demographic_score := round2 demographic_score
      engagement_score := round2 engagement_score
      recommendations := recommendations
      qualified_at := now
      next_actions := suggest_next_actions classification now }

/-- `LeadQualificationService.qualify_lead`: the surrounding
`except Exception` turns every failure into the default result. -/
def qualify_lead (db : QDb) (lead_id : Nat) (now : Nat) : QualResult :=
  match qualifyLeadBody db lead_id now with
  | Except.ok r => r
  | Except.error _ => default_qualification_result lead_id now

end Qualification

namespace Automation

lemma weekday_lt (t : Nat) : weekday t < 7 := by
  unfold weekday; omega

/-- Complete characterisation of the fuelled weekday loop: it adds `k` whole
days where `k` is minimal with an allowed weekday, unless the fuel runs out
first. -/
lemma advance_spec (business_days : List Nat) :
    ∀ fuel t, ∃ k, k ≤ fuel ∧
      advanceToBusinessDay business_days fuel t = t + k * secondsPerDay ∧
      (∀ j, j < k → weekday (t + j * secondsPerDay) ∉ business_days) ∧
      (weekday (t + k * secondsPerDay) ∈ business_days ∨ k = fuel) := by
  intro fuel
  induction fuel with
  | zero =>
    intro t
    exact ⟨0, le_rfl, by simp [advanceToBusinessDay],
      fun j hj => absurd hj (Nat.not_lt_zero j), Or.inr rfl⟩
  | succ fuel ih =>
    intro t
    by_cases hm : weekday t ∈ business_days
    · refine ⟨0, Nat.zero_le _, ?_, fun j hj => absurd hj (Nat.not_lt_zero j), Or.inl ?_⟩
      · simp [advanceToBusinessDay, hm]
      · simpa using hm
    · obtain ⟨k, hk, heq, hmin, hor⟩ := ih (t + secondsPerDay)
      refine ⟨k + 1, by omega, ?_, ?_, ?_⟩
      · show advanceToBusinessDay business_days (fuel + 1) t = t + (k + 1) * secondsPerDay
        rw [advanceToBusinessDay, if_neg hm, heq]
        ring
      · intro j hj
        cases j with
        | zero => simpa using hm
        | succ i =>
          have hi := hmin i (by omega)
          have harr : t + (i + 1) * secondsPerDay = t + secondsPerDay + i * secondsPerDay := by
            ring
          rwa [harr]
      · rcases hor with h | h
        · left
          have harr : t + (k + 1) * secondsPerDay = t + secondsPerDay + k * secondsPerDay := by
            ring
          rwa [harr]
        · right
          omega

/-- A valid weekday in the list is hit within seven daily steps. -/
lemma exists_hit (business_days : List Nat) (t : Nat)
    (h : ∃ d ∈ business_days, d < 7) :
    ∃ n, n < 7 ∧ weekday (t + n * secondsPerDay) ∈ business_days := by
  obtain ⟨d, hd, hd7⟩ := h
  refine ⟨(d + 7 - (t / secondsPerDay + 3) % 7) % 7, Nat.mod_lt _ (by norm_num), ?_⟩
  have hw : weekday (t + ((d + 7 - (t / secondsPerDay + 3) % 7) % 7) * secondsPerDay) = d := by
    unfold weekday secondsPerDay
    omega
  rwa [hw]

lemma advance_mem (business_days : List Nat) (t : Nat)
    (h : ∃ d ∈ business_days, d < 7) :
    weekday (advanceToBusinessDay business_days 7 t) ∈ business_days := by
  obtain ⟨k, hk, heq, hmin, hor⟩ := advance_spec business_days 7 t
  obtain ⟨n, hn7, hnmem⟩ := exists_hit business_days t h
  rw [heq]
  rcases hor with hmem | hk7
  · exact hmem
  · exact absurd hnmem (hmin n (by omega))

lemma advance_exists_add (business_days : List Nat) (fuel t : Nat) :
    ∃ k, advanceToBusinessDay business_days fuel t = t + k * secondsPerDay := by
  obtain ⟨k, _, heq, _, _⟩ := advance_spec business_days fuel t
  exact ⟨k, heq⟩

lemma advance_of_mem (business_days : List Nat) (fuel t : Nat)
    (h : weekday t ∈ business_days) :
    advanceToBusinessDay business_days fuel t = t := by
  cases fuel with
  | zero => rfl
  | succ fuel => rw [advanceToBusinessDay, if_pos h]

lemma hourOf_add_mul (t k : Nat) : hourOf (t + k * secondsPerDay) = hourOf t := by
  unfold hourOf secondsPerDay
  omega

lemma weekday_replaceHour (t h : Nat) (hh : h ≤ 23) :
    weekday (replaceHourZero t h) = weekday t := by
  unfold weekday replaceHourZero secondsPerDay
  omega

lemma hourOf_replaceHour (t h : Nat) (hh : h ≤ 23) :
    hourOf (replaceHourZero t h) = h := by
  unfold hourOf replaceHourZero secondsPerDay
  omega

/-- After adjustment the timestamp is compliant: allowed weekday, hour inside
the delivery window. -/
lemma adjust_compliant (sequence : EmailSequence) (t : Nat)
    (hne : ∃ d ∈ scheduleDays sequence, d < 7)
    (hlt : (scheduleHours sequence).1 < (scheduleHours sequence).2)
    (h23 : (scheduleHours sequence).1 ≤ 23) :
    weekday (adjust_for_schedule t sequence) ∈ scheduleDays sequence ∧
    (scheduleHours sequence).1 ≤ hourOf (adjust_for_schedule t sequence) ∧
    hourOf (adjust_for_schedule t sequence) < (scheduleHours sequence).2 := by
  have hmem1 : weekday (advanceToBusinessDay (scheduleDays sequence) 7 t) ∈ scheduleDays sequence :=
    advance_mem _ t hne
  simp only [adjust_for_schedule]
  split_ifs with h1 h2
  · refine ⟨?_, ?_, ?_⟩
    · rw [weekday_replaceHour _ _ h23]; exact hmem1
    · rw [hourOf_replaceHour _ _ h23]
    · rw [hourOf_replaceHour _ _ h23]; exact hlt
  · obtain ⟨k2, hk2⟩ := advance_exists_add (scheduleDays sequence) 7
      (replaceHourZero (advanceToBusinessDay (scheduleDays sequence) 7 t + secondsPerDay)
        (scheduleHours sequence).1)
    refine ⟨advance_mem _ _ hne, ?_, ?_⟩
    · rw [hk2, hourOf_add_mul, hourOf_replaceHour _ _ h23]
    · rw [hk2, hourOf_add_mul, hourOf_replaceHour _ _ h23]; exact hlt
  · exact ⟨hmem1, by omega, by omega⟩

/-- A compliant timestamp is a fixed point of the adjustment. -/
lemma adjust_of_compliant (sequence : EmailSequence) (t : Nat)
    (hmem : weekday t ∈ scheduleDays sequence)
    (hge : (scheduleHours sequence).1 ≤ hourOf t)
    (hlt : hourOf t < (scheduleHours sequence).2) :
    adjust_for_schedule t sequence = t := by
  simp only [adjust_for_schedule]
  rw [advance_of_mem _ _ _ hmem, if_neg (by omega), if_neg (by omega)]

end Automation

namespace Automation

/-- A sequence with no explicit `sending_schedule`: the engine's defaults
apply (business days Mon–Fri, business hours 9–17). -/
def defaultSequence : EmailSequence :=
  { id := 1, target_grades := [], target_sources := [], target_industries := []
    sending_schedule := none }

/-- Step 1 with the cold-outreach intro delay 0d/0h/5m (see
`create_cold_outreach_sequence`). -/
def introStep : SequenceStep :=
  { sequence_id := 1, step_number := 1, delay_days := 0, delay_hours := 0
    delay_minutes := 5, template_id := 1
    send_conditions := { min_lead_score := none, required_grade := none }
    skip_conditions := { skip_if_replied := none } }

def dbSchedule : Db :=
  { sequences := [defaultSequence], steps := [introStep], leads := [], templates := []
    enrollments := [], emails := [] }

/-- C3: the delivery-window adjustment `_adjust_for_schedule` is idempotent —
`adjust (adjust t) = adjust t` — for every timestamp `t` and every schedule
configuration whose weekday list contains a genuine weekday and whose hour
window satisfies start < end with a valid start hour; moreover applying it to
a timestamp already on an allowed weekday inside the hour window is a no-op. -/
theorem c3_adjust_for_schedule_idempotent (sequence : EmailSequence) (t : Nat)
    (hne : ∃ d ∈ scheduleDays sequence, d < 7)
    (hlt : (scheduleHours sequence).1 < (scheduleHours sequence).2)
    (h23 : (scheduleHours sequence).1 ≤ 23) :
    adjust_for_schedule (adjust_for_schedule t sequence) sequence =
      adjust_for_schedule t sequence ∧
    (weekday t ∈ scheduleDays sequence →
      (scheduleHours sequence).1 ≤ hourOf t →
      hourOf t < (scheduleHours sequence).2 →
      adjust_for_schedule t sequence = t) := by
  obtain ⟨h1, h2, h3⟩ := adjust_compliant sequence t hne hlt h23
  exact ⟨adjust_of_compliant sequence _ h1 h2 h3,
    fun a b c => adjust_of_compliant sequence t a b c⟩

/-- Witness for C3: the default schedule and a Saturday-10:00 timestamp. -/
theorem c3_adjust_for_schedule_idempotent_witness :
    adjust_for_schedule (adjust_for_schedule 208800 defaultSequence) defaultSequence =
      adjust_for_schedule 208800 defaultSequence :=
  (c3_adjust_for_schedule_idempotent defaultSequence 208800 (by decide) (by decide)
    (by decide)).1

/-- C9: the weekday-advance loop of `_adjust_for_schedule` terminates exactly
when the configured `business_days` list contains a value in 0..6: the loop's
exit condition `weekday ∈ business_days` is eventually reached from any start
iff such a value exists (with an empty — or all-invalid — list it never is,
so the Python loop diverges), and when it is, the seven-step unrolling used
here computes the loop's result, an allowed weekday. -/
theorem c9_weekday_loop_termination (business_days : List Nat) :
    (∀ t, (∃ n, weekday (t + n * secondsPerDay) ∈ business_days) ↔
      ∃ d ∈ business_days, d < 7) ∧
    ((∃ d ∈ business_days, d < 7) →
      ∀ t, weekday (advanceToBusinessDay business_days 7 t) ∈ business_days) := by
  constructor
  · intro t
    constructor
    · rintro ⟨n, hn⟩
      exact ⟨weekday (t + n * secondsPerDay), hn, weekday_lt _⟩
    · intro h
      obtain ⟨n, _, hn⟩ := exists_hit business_days t h
      exact ⟨n, hn⟩
  · intro h t
    exact advance_mem business_days t h

/-- Witness for C9: with allowed list `[2]` the loop exits (at a Wednesday);
with the empty list no number of one-day advances ever satisfies the exit
condition. -/
theorem c9_weekday_loop_termination_witness :
    weekday (advanceToBusinessDay [2] 7 0) ∈ [2] ∧
    ¬ (∃ n, weekday (0 + n * secondsPerDay) ∈ ([] : List Nat)) := by
  constructor
  · exact (c9_weekday_loop_termination [2]).2 (by decide) 0
  · intro h
    exact absurd (((c9_weekday_loop_termination []).1 0).mp h) (by decide)

/-- Counterexample to C7 as stated: enrolling at Saturday 09:55 (208500) with
the 5-minute step-1 delay puts the computed send time at Saturday 10:00 — a
disallowed weekday under the default Mon–Fri schedule — yet the adjusted
next-action timestamp is Monday 10:00 (381600), keeping the 10:00 hour
instead of landing at the 9:00 window-start hour. -/
theorem c7_counterexample :
    weekday (208500 + stepDelay introStep) ∉ scheduleDays defaultSequence ∧
    calculate_next_email_time dbSchedule defaultSequence 1 208500 = 381600 ∧
    hourOf (calculate_next_email_time dbSchedule defaultSequence 1 208500) = 10 ∧
    (scheduleHours defaultSequence).1 = 9 := by decide

/-- C7 amended: when the computed send time (enrollment time plus the step's
delay) falls on a disallowed weekday AND its hour is before the window start,
the next-action timestamp lands on the next allowed weekday at the
window-start hour (when the hour is already inside the window, the hour is
preserved instead — see the counterexample). -/
theorem c7_next_allowed_weekday_window_start (db : Db) (sequence : EmailSequence)
    (step_number now : Nat) (step : SequenceStep)
    (hstep : findStep db sequence.id step_number = some step)
    (hne : ∃ d ∈ scheduleDays sequence, d < 7)
    (h23 : (scheduleHours sequence).1 ≤ 23)
    (hday : weekday (now + stepDelay step) ∉ scheduleDays sequence)
    (hhour : hourOf (now + stepDelay step) < (scheduleHours sequence).1) :
    ∃ k, 0 < k ∧
      weekday (now + stepDelay step + k * secondsPerDay) ∈ scheduleDays sequence ∧
      (∀ j, j < k →
        weekday (now + stepDelay step + j * secondsPerDay) ∉ scheduleDays sequence) ∧
      calculate_next_email_time db sequence step_number now =
        replaceHourZero (now + stepDelay step + k * secondsPerDay)
          (scheduleHours sequence).1 ∧
      hourOf (calculate_next_email_time db sequence step_number now) =
        (scheduleHours sequence).1 := by
  obtain ⟨k, hk7, heq, hmin, hor⟩ :=
    advance_spec (scheduleDays sequence) 7 (now + stepDelay step)
  have hmem : weekday (now + stepDelay step + k * secondsPerDay) ∈ scheduleDays sequence := by
    rcases hor with h | h
    · exact h
    · obtain ⟨n, hn7, hnmem⟩ := exists_hit _ (now + stepDelay step) hne
      exact absurd hnmem (hmin n (by omega))
  have hk0 : 0 < k := by
    rcases Nat.eq_zero_or_pos k with h0 | h0
    · exact absurd (by simpa [h0] using hmem) hday
    · exact h0
  have ht1hour :
      hourOf (advanceToBusinessDay (scheduleDays sequence) 7 (now + stepDelay step)) <
        (scheduleHours sequence).1 := by
    rw [heq, hourOf_add_mul]
    exact hhour
  have hcalc : calculate_next_email_time db sequence step_number now =
      replaceHourZero (now + stepDelay step + k * secondsPerDay)
        (scheduleHours sequence).1 := by
    unfold calculate_next_email_time
    rw [hstep]
    simp only [adjust_for_schedule]
    rw [if_pos ht1hour, heq]
  refine ⟨k, hk0, hmem, hmin, hcalc, ?_⟩
  rw [hcalc, hourOf_replaceHour _ _ h23]

/-- Witness for the amended C7: enrollment at Saturday 06:55 (197700); the
send time Saturday 07:00 is on a disallowed weekday before the window, and
the result lands on Monday 09:00. -/
theorem c7_next_allowed_weekday_window_start_witness :
    ∃ k, 0 < k ∧
      weekday (197700 + stepDelay introStep + k * secondsPerDay) ∈
        scheduleDays defaultSequence ∧
      (∀ j, j < k →
        weekday (197700 + stepDelay introStep + j * secondsPerDay) ∉
          scheduleDays defaultSequence) ∧
      calculate_next_email_time dbSchedule defaultSequence 1 197700 =
        replaceHourZero (197700 + stepDelay introStep + k * secondsPerDay)
          (scheduleHours defaultSequence).1 ∧
      hourOf (calculate_next_email_time dbSchedule defaultSequence 1 197700) =
        (scheduleHours defaultSequence).1 :=
  c7_next_allowed_weekday_window_start dbSchedule defaultSequence 1 197700 introStep
    (by decide) (by decide) (by decide) (by decide) (by decide)

end Automation

namespace Automation

lemma hasActive_false_count_zero (db : Db) (lead_id sequence_id : Nat)
    (h : hasActiveEnrollment db lead_id sequence_id = false) :
    countActive db lead_id sequence_id = 0 := by
  unfold hasActiveEnrollment at h
  unfold countActive
  rw [List.length_eq_zero, List.filter_eq_nil_iff]
  intro a ha
  have := List.any_eq_false.mp h a ha
  simpa using this

lemma countActive_append (db : Db) (e : Enrollment) (l s : Nat) :
    countActive { db with enrollments := db.enrollments ++ [e] } l s =
      countActive db l s +
        (if e.lead_id == l && e.sequence_id == s && e.status == SequenceStatus.ACTIVE
         then 1 else 0) := by
  unfold countActive
  simp only [List.filter_append, List.length_append]
  by_cases hp : (e.lead_id == l && e.sequence_id == s && e.status == SequenceStatus.ACTIVE) = true
  · simp [List.filter_cons, hp]
  · simp [List.filter_cons, hp]

/-- C1: while an ACTIVE enrollment for a (lead, sequence) pair exists, a
second `enroll_lead_in_sequence` call for the same pair returns `False` and
leaves the store unchanged (no second row); consequently the invariant "at
most one ACTIVE enrollment per (lead, sequence) pair" is preserved by every
enroll call. -/
theorem c1_enroll_duplicate_uniqueness (db : Db) (lead_id sequence_id : Nat)
    (enrolled_by : String) (now : Nat) :
    (hasActiveEnrollment db lead_id sequence_id = true →
      enroll_lead_in_sequence db lead_id sequence_id enrolled_by now = (false, db)) ∧
    ((∀ l s, countActive db l s ≤ 1) →
      ∀ l s,
        countActive (enroll_lead_in_sequence db lead_id sequence_id enrolled_by now).2 l s
          ≤ 1) := by
  constructor
  · intro h
    unfold enroll_lead_in_sequence
    rw [if_pos h]
  · intro hinv l s
    unfold enroll_lead_in_sequence
    by_cases hdup : hasActiveEnrollment db lead_id sequence_id = true
    · rw [if_pos hdup]
      exact hinv l s
    · rw [if_neg hdup]
      have hdupf : hasActiveEnrollment db lead_id sequence_id = false :=
        Bool.eq_false_iff.mpr hdup
      cases hseq : findSequence db sequence_id with
      | none =>
        cases hlead : findLead db lead_id <;> simpa using hinv l s
      | some sequence =>
        cases hlead : findLead db lead_id with
        | none => simpa using hinv l s
        | some lead =>
          by_cases htar : lead_matches_targeting lead sequence = true
          · simp only [htar, Bool.not_true, Bool.false_eq_true, if_false]
            rw [countActive_append]
            by_cases hl : lead_id = l
            · by_cases hs : sequence_id = s
              · subst hl; subst hs
                rw [hasActive_false_count_zero db lead_id sequence_id hdupf]
                simp only [Nat.zero_add]
                split_ifs <;> omega
              · have : (sequence_id == s) = false := by simp [hs]
                simp [this]
                exact hinv l s
            · have : (lead_id == l) = false := by simp [hl]
              simp [this]
              exact hinv l s
          · have : lead_matches_targeting lead sequence = false :=
              Bool.eq_false_iff.mpr htar
            simp only [this, Bool.not_false, if_true]
            exact hinv l s

/-- An existing ACTIVE enrollment of lead 7 in sequence 3. -/
def activeEnrollment : Enrollment :=
  { sequence_id := 3, lead_id := 7, enrolled_by := "system"
    status := SequenceStatus.ACTIVE, current_step := 1, next_email_at := some 0
    emails_sent := 0, completed_at := none }

def dbWithActive : Db :=
  { sequences := [], steps := [], leads := [], templates := []
    enrollments := [activeEnrollment], emails := [] }

/-- Witness for C1: re-enrolling lead 7 in sequence 3 fails and keeps a
single ACTIVE row. -/
theorem c1_enroll_duplicate_uniqueness_witness :
    enroll_lead_in_sequence dbWithActive 7 3 "system" 0 = (false, dbWithActive) ∧
    countActive (enroll_lead_in_sequence dbWithActive 7 3 "system" 0).2 7 3 ≤ 1 := by
  have hinv : ∀ l s, countActive dbWithActive l s ≤ 1 := by
    intro l s
    have hle := List.length_filter_le
      (fun e => e.lead_id == l && e.sequence_id == s && e.status == SequenceStatus.ACTIVE)
      dbWithActive.enrollments
    unfold countActive
    exact le_trans hle (by decide)
  exact ⟨(c1_enroll_duplicate_uniqueness dbWithActive 7 3 "system" 0).1 (by decide),
    (c1_enroll_duplicate_uniqueness dbWithActive 7 3 "system" 0).2 hinv 7 3⟩

end Automation

namespace Automation

/-- A step row whose lead/template referents will be missing, and a due
ACTIVE enrollment sitting at that step. -/
def orphanStep : SequenceStep :=
  { sequence_id := 4, step_number := 2, delay_days := 0, delay_hours := 0
    delay_minutes := 0, template_id := 9
    send_conditions := { min_lead_score := none, required_grade := none }
    skip_conditions := { skip_if_replied := none } }

def dbOrphan : Db :=
  { sequences := [], steps := [orphanStep], leads := [], templates := []
    enrollments := [], emails := [] }

def dueEnrollment : Enrollment :=
  { sequence_id := 4, lead_id := 5, enrolled_by := "system"
    status := SequenceStatus.ACTIVE, current_step := 2, next_email_at := some 100
    emails_sent := 1, completed_at := none }

/-- An ACTIVE enrollment whose current step number has no step row. -/
def beyondEnrollment : Enrollment :=
  { sequence_id := 4, lead_id := 5, enrolled_by := "system"
    status := SequenceStatus.ACTIVE, current_step := 3, next_email_at := some 100
    emails_sent := 2, completed_at := none }

/-- C10: when the step row exists but the enrollment's lead or the step's
template cannot be found, `_process_enrollment` returns with the enrollment
entirely unchanged — status still ACTIVE, `current_step` and `next_email_at`
untouched, no email created — so the same enrollment still satisfies the
due-filter on every later `process_sequences` pass. -/
theorem c10_process_missing_lead_or_template (db : Db) (e : Enrollment) (now : Nat)
    (step : SequenceStep)
    (hstep : findStep db e.sequence_id e.current_step = some step)
    (hmiss : findLead db e.lead_id = none ∨ findTemplate db step.template_id = none) :
    process_enrollment db e now = (e, none) ∧
    (isDue e now = true → isDue (process_enrollment db e now).1 now = true) := by
  have h1 : process_enrollment db e now = (e, none) := by
    unfold process_enrollment
    rw [hstep]
    rcases hmiss with h | h
    · cases ht : findTemplate db step.template_id <;> simp [h, ht]
    · cases hl : findLead db e.lead_id <;> simp [hl, h]
  refine ⟨h1, fun hd => ?_⟩
  rw [h1]
  exact hd

/-- Witness for C10: enrollment of the missing lead 5 at step 2 is processed
and left unchanged, still due. -/
theorem c10_process_missing_lead_or_template_witness :
    process_enrollment dbOrphan dueEnrollment 500 = (dueEnrollment, none) ∧
    isDue (process_enrollment dbOrphan dueEnrollment 500).1 500 = true := by
  have h := c10_process_missing_lead_or_template dbOrphan dueEnrollment 500 orphanStep
    (by decide) (Or.inl (by decide))
  exact ⟨h.1, h.2 (by decide)⟩

/-- Counterexample to C2 as stated: a due ACTIVE enrollment whose
`current_step` (3) has no step row is processed; it does transition to
COMPLETED, but its next-action timestamp stays `some 100` — it is not set to
null, so "next-action timestamp is non-null iff status is ACTIVE with a
defined step" fails on this completed row. -/
theorem c2_counterexample :
    isDue beyondEnrollment 500 = true ∧
    (process_enrollment dbOrphan beyondEnrollment 500).1.status =
      SequenceStatus.COMPLETED ∧
    (process_enrollment dbOrphan beyondEnrollment 500).1.next_email_at = some 100 := by
  decide

/-- C2 amended: `_process_enrollment` on an enrollment whose `current_step`
has no step row transitions it to COMPLETED with `completed_at = now` and
leaves `next_email_at` unchanged (it does NOT null it); more generally the
engine never nulls `next_email_at`: whenever it is non-null before a
processing pass it is non-null after (`_calculate_next_email_time` is total,
returning `now` when the step is undefined). -/
theorem c2_process_completes_keeps_next_email (db : Db) (e : Enrollment) (now : Nat)
    (hstep : findStep db e.sequence_id e.current_step = none) :
    process_enrollment db e now =
      ({ e with status := SequenceStatus.COMPLETED, completed_at := some now }, none) ∧
    (process_enrollment db e now).1.next_email_at = e.next_email_at ∧
    (∀ db2 e2 now2, (e2.next_email_at).isSome = true →
      ((process_enrollment db2 e2 now2).1.next_email_at).isSome = true) := by
  have h1 : process_enrollment db e now =
      ({ e with status := SequenceStatus.COMPLETED, completed_at := some now }, none) := by
    unfold process_enrollment
    rw [hstep]
  refine ⟨h1, by rw [h1], ?_⟩
  intro db2 e2 now2 h
  unfold process_enrollment
  cases hstep2 : findStep db2 e2.sequence_id e2.current_step with
  | none => simpa using h
  | some step =>
    cases hl : findLead db2 e2.lead_id with
    | none => cases ht : findTemplate db2 step.template_id <;> simpa using h
    | some lead =>
      cases ht : findTemplate db2 step.template_id with
      | none =>
        simp only [ht]
        simpa using h
      | some template =>
        simp only [ht]
        by_cases hc : check_step_conditions db2 step lead = true <;> simp [hc]

/-- Witness for the amended C2 at the concrete due enrollment of
`c2_counterexample`. -/
theorem c2_process_completes_keeps_next_email_witness :
    process_enrollment dbOrphan beyondEnrollment 500 =
      ({ beyondEnrollment with
          status := SequenceStatus.COMPLETED, completed_at := some 500 }, none) ∧
    (process_enrollment dbOrphan beyondEnrollment 500).1.next_email_at =
      beyondEnrollment.next_email_at ∧
    (∀ db2 e2 now2, (e2.next_email_at).isSome = true →
      ((process_enrollment db2 e2 now2).1.next_email_at).isSome = true) :=
  c2_process_completes_keeps_next_email dbOrphan beyondEnrollment 500 (by decide)

end Automation

deriving instance DecidableEq for Except

namespace Scoring

/-- Rank of a tier under the fixed ordering HOT > WARM > COLD > TRASH. -/
def tierRank (tier : String) : Nat :=
  if tier = "HOT" then 3
  else if tier = "WARM" then 2
  else if tier = "COLD" then 1
  else 0

lemma tierRank_classify (s : ℚ) :
    tierRank (classify_lead s) =
      if 8 ≤ s then 3 else if 13/2 ≤ s then 2 else if 4 ≤ s then 1 else 0 := by
  unfold classify_lead
  split_ifs <;> rfl

/-- C8: `_classify_lead` maps scores ≥ 8.0 to HOT, ≥ 6.5 to WARM, ≥ 4.0 to
COLD and everything below to TRASH, and is monotone: a strictly higher score
never gets a lower tier under HOT > WARM > COLD > TRASH. -/
theorem c8_classify_thresholds_monotone :
    (∀ s : ℚ, 8 ≤ s → classify_lead s = "HOT") ∧
    (∀ s : ℚ, 13/2 ≤ s → s < 8 → classify_lead s = "WARM") ∧
    (∀ s : ℚ, 4 ≤ s → s < 13/2 → classify_lead s = "COLD") ∧
    (∀ s : ℚ, s < 4 → classify_lead s = "TRASH") ∧
    (∀ a b : ℚ, b < a → tierRank (classify_lead b) ≤ tierRank (classify_lead a)) := by
  refine ⟨?_, ?_, ?_, ?_, ?_⟩
  · intro s h
    unfold classify_lead
    rw [if_pos h]
  · intro s h1 h2
    unfold classify_lead
    rw [if_neg (by linarith), if_pos h1]
  · intro s h1 h2
    unfold classify_lead
    rw [if_neg (by linarith), if_neg (by linarith), if_pos h1]
  · intro s h
    unfold classify_lead
    rw [if_neg (by linarith), if_neg (by linarith), if_neg (by linarith)]
  · intro a b hba
    rw [tierRank_classify, tierRank_classify]
    split_ifs <;> first | omega | linarith

/-- Witness for C8 at scores 9 and 3. -/
theorem c8_classify_thresholds_monotone_witness :
    tierRank (classify_lead 3) ≤ tierRank (classify_lead 9) ∧
    classify_lead 9 = "HOT" ∧ classify_lead 3 = "TRASH" :=
  ⟨c8_classify_thresholds_monotone.2.2.2.2 9 3 (by norm_num),
   c8_classify_thresholds_monotone.1 9 (by norm_num),
   c8_classify_thresholds_monotone.2.2.2.1 3 (by norm_num)⟩

/-- C5: whenever the body of `score_profile` raises, the exception is not
propagated: the caller receives the documented default ScoreResult with
final score 5.0, classification UNKNOWN and confidence 0.5. -/
theorem c5_score_profile_default_on_error (p : Profile) (now : Nat) (err : Unit)
    (h : scoreProfileBody p now = Except.error err) :
    score_profile p now = default_score_result p.id now ∧
    (score_profile p now).final_score = 5 ∧
    (score_profile p now).classification = "UNKNOWN" ∧
    (score_profile p now).confidence = 1/2 := by
  have h1 : score_profile p now = default_score_result p.id now := by
    unfold score_profile
    rw [h]
  exact ⟨h1, by rw [h1]; rfl, by rw [h1]; rfl, by rw [h1]; rfl⟩

/-- A profile whose `description` attribute is a truthy non-string object:
`len(description)` in `_ai_contextual_scoring` raises before the inner
`try`, so `score_profile`'s own handler is exercised. -/
def badProfile : Profile :=
  { id := 9, email := none, phone := none, instagram_url := none
    onlyfans_url := none, twitter_url := none, description := some Dyn.nonStr
    location := none }

/-- Witness for C5 at `badProfile`. -/
theorem c5_score_profile_default_on_error_witness :
    score_profile badProfile 0 = default_score_result badProfile.id 0 ∧
    (score_profile badProfile 0).final_score = 5 ∧
    (score_profile badProfile 0).classification = "UNKNOWN" ∧
    (score_profile badProfile 0).confidence = 1/2 :=
  c5_score_profile_default_on_error badProfile 0 () (by decide)

/-- The C6 scenario lead: valid email, 225-character description containing
exactly the keywords Professional / serious / verified (and none of the
other scored keywords), instagram and onlyfans set, location New York. -/
def sophie_description : String :=
  "I am a Professional and serious model based in the city. I am verified on all of my pages. I enjoy meeting kind and respectful people. I like long walks in the park, good coffee in the morning, and art museums on the weekend."

def sophie_profile : Profile :=
  { id := 1, email := some "sophie@x.com", phone := none
    instagram_url := some "https://instagram.com/sophie"
    onlyfans_url := some "https://onlyfans.com/sophie"
    twitter_url := none, description := some (Dyn.str sophie_description)
    location := some "New York, NY" }

set_option maxRecDepth 16384 in
/-- Counterexample to C6 as stated: this profile satisfies every property of
the scenario (email `sophie@x.com` valid, description longer than 200
characters containing Professional / serious / verified, instagram and
onlyfans set, location New York, NY), yet `_algorithmic_scoring` yields 7.1 —
not ≥ 8.0 — and the resulting classification is WARM, not HOT: of the three
scenario keywords only `serious` and `professional` are business keywords
(worth 0.3 each, so content scores 1.0 + 0.6 with no phone bonus), capping
the additive total at 7.1. -/
theorem c6_counterexample :
    200 < sophie_description.length ∧
    strContains (lowerString sophie_description) "professional" = true ∧
    strContains (lowerString sophie_description) "serious" = true ∧
    strContains (lowerString sophie_description) "verified" = true ∧
    is_valid_email "sophie@x.com" = true ∧
    ¬ (8 ≤ algorithmic_scoring sophie_profile) ∧
    (score_profile sophie_profile 0).classification ≠ "HOT" := by
  decide

set_option maxRecDepth 16384 in
/-- C6 amended: for the scenario lead the algorithmic sub-score is exactly
7.1 (so ≥ 7.0, matching the spec's own "complete profile ⇒ ≥ 7.0" testable
property, but below 8.0) and the resulting tier is WARM. -/
theorem c6_sophie_score_warm :
    algorithmic_scoring sophie_profile = 71/10 ∧
    7 ≤ algorithmic_scoring sophie_profile ∧
    (score_profile sophie_profile 0).classification = "WARM" := by
  decide

end Scoring

namespace Qualification

def emptyQDb : QDb := { pipeline_leads := [], leads_ids := [], email_campaigns := [] }

/-- Counterexample to C4 as stated: for an unresolvable lead id the caller of
`qualify_lead` receives a normal qualification result — the default dict with
classification UNKNOWN — not a surfaced NotFound failure; the
`ValueError("Lead .. non trouvé")` is raised inside the body but swallowed by
the surrounding `except Exception`. -/
theorem c4_counterexample :
    qualify_lead emptyQDb 42 0 = default_qualification_result 42 0 ∧
    (qualify_lead emptyQDb 42 0).classification = "UNKNOWN" ∧
    qualifyLeadBody emptyQDb 42 0 = Except.error QualError.notFound := by
  decide

/-- C4 amended: when the lead id does not resolve, `qualify_lead` raises
NotFound internally but its top-level handler catches it and returns the
default qualification result (score 5.0, classification UNKNOWN); the
failure is not surfaced to the caller. -/
theorem c4_qualify_notfound_swallowed (db : QDb) (lead_id now : Nat)
    (h : get_lead_data db lead_id = none) :
    qualifyLeadBody db lead_id now = Except.error QualError.notFound ∧
    qualify_lead db lead_id now = default_qualification_result lead_id now := by
  have h1 : qualifyLeadBody db lead_id now = Except.error QualError.notFound := by
    unfold qualifyLeadBody
    rw [h]
    rfl
  exact ⟨h1, by unfold qualify_lead; rw [h1]⟩

/-- Witness for the amended C4 on the empty store. -/
theorem c4_qualify_notfound_swallowed_witness :
    qualifyLeadBody emptyQDb 42 0 = Except.error QualError.notFound ∧
    qualify_lead emptyQDb 42 0 = default_qualification_result 42 0 :=
  c4_qualify_notfound_swallowed emptyQDb 42 0 (by decide)

end Qualification
